import Mathlib

/-!
Shallow embedding of the single source file of the repository,
`src/implementors/core/ops/trait.Place.js`, a rustdoc-generated
implementors fragment:

```
(function() {var implementors = {};
implementors["biscuit"] = ["impl ...", ..., "impl ..."];

            if (window.register_implementors) {
                window.register_implementors(implementors);
            } else {
                window.pending_implementors = implementors;
            }

})()
```

JavaScript values are modelled by the inductive `Value`; the browser
`window` object is modelled extensionally as a total map from property
names to values (reading an absent property yields `undefined`, as in
JavaScript).  Running the script is the function `runScript`, which
returns the window as modified by the script itself together with the
list of calls the script makes to the registration hook (callee value
and argument), or a `TypeError` when the hook slot holds a truthy
non-callable value.
-/

/-- Model of a JavaScript value: the primitive values, callables
(identified abstractly by an id), ordered string-keyed objects and
arrays.  Numbers are modelled as integers; no numeric value occurs in
the source file itself, the field only serves to populate arbitrary
window properties. -/
inductive Value where
  | undefined : Value
  | nullv : Value
  | boolean : Bool → Value
  | number : Int → Value
  | str : String → Value
  | closure : Nat → Value
  | obj : List (String × Value) → Value
  | arr : List Value → Value

/-- JavaScript truthiness of a modelled value (`undefined`, `null`,
`false`, `0` and the empty string are falsy; functions, objects and
arrays are truthy). -/
def truthy : Value → Bool
  | .undefined => false
  | .nullv => false
  | .boolean b => b
  | .number n => n != 0
  | .str s => s != ""
  | .closure _ => true
  | .obj _ => true
  | .arr _ => true

/-- Whether a modelled value can be called as a function. -/
def isCallable : Value → Bool
  | .closure _ => true
  | _ => false

/-- JavaScript property assignment `o[k] = v` on an ordered object:
overwrite in place when the key is present, append otherwise. -/
def objSet (props : List (String × Value)) (k : String) (v : Value) :
    List (String × Value) :=
  if props.any (fun kv => kv.1 = k) then
    props.map (fun kv => if kv.1 = k then (k, v) else kv)
  else
    props ++ [(k, v)]

/-- The keys of an object value, in order; non-objects have no keys. -/
def objKeys : Value → List String
  | .obj l => l.map (fun kv => kv.1)
  | _ => []

/-- Property lookup `o[k]` restricted to object values. -/
def objGet (v : Value) (k : String) : Option Value :=
  match v with
  | .obj l => ((l.find? (fun kv => kv.1 = k)).map (fun kv => kv.2))
  | _ => none

/-- Whether a value is an array all of whose elements are strings. -/
def isStrArr : Value → Bool
  | .arr l => l.all (fun v => match v with | .str _ => true | _ => false)
  | _ => false

/-- Whether a value is a mapping from (string) keys to ordered
sequences of strings: an object each of whose values is an array of
strings.  Keys of `Value.obj` are strings by construction. -/
def isStrListMapping : Value → Bool
  | .obj l => l.all (fun kv => isStrArr kv.2)
  | _ => false

/-- Element 1 of the implementors["biscuit"] array in src/implementors/core/ops/trait.Place.js. -/
def implStr1 : String :=
  "impl&lt;T&gt; <a class=\x27trait\x27 href=\x27https://doc.rust-lang.org/nightly/core/ops/trait.Place.html\x27 title=\x27core::ops::Place\x27>Place</a>&lt;T&gt; for <a class=\x27struct\x27 href=\x27https://doc.rust-lang.org/nightly/alloc/boxed/struct.IntermediateBox.html\x27 title=\x27alloc::boxed::IntermediateBox\x27>IntermediateBox</a>&lt;T&gt;"

/-- Element 2 of the implementors["biscuit"] array in src/implementors/core/ops/trait.Place.js. -/
def implStr2 : String :=
  "impl&lt;\x27a, T&gt; <a class=\x27trait\x27 href=\x27https://doc.rust-lang.org/nightly/core/ops/trait.Place.html\x27 title=\x27core::ops::Place\x27>Place</a>&lt;T&gt; for <a class=\x27struct\x27 href=\x27https://doc.rust-lang.org/nightly/collections/binary_heap/struct.BinaryHeapPlace.html\x27 title=\x27collections::binary_heap::BinaryHeapPlace\x27>BinaryHeapPlace</a>&lt;\x27a, T&gt; <span class=\x27where fmt-newline\x27>where T: <a class=\x27trait\x27 href=\x27https://doc.rust-lang.org/nightly/core/clone/trait.Clone.html\x27 title=\x27core::clone::Clone\x27>Clone</a> + <a class=\x27trait\x27 href=\x27https://doc.rust-lang.org/nightly/core/cmp/trait.Ord.html\x27 title=\x27core::cmp::Ord\x27>Ord</a></span>"

/-- Element 3 of the implementors["biscuit"] array in src/implementors/core/ops/trait.Place.js. -/
def implStr3 : String :=
  "impl&lt;\x27a, T&gt; <a class=\x27trait\x27 href=\x27https://doc.rust-lang.org/nightly/core/ops/trait.Place.html\x27 title=\x27core::ops::Place\x27>Place</a>&lt;T&gt; for <a class=\x27struct\x27 href=\x27https://doc.rust-lang.org/nightly/collections/linked_list/struct.FrontPlace.html\x27 title=\x27collections::linked_list::FrontPlace\x27>FrontPlace</a>&lt;\x27a, T&gt;"

/-- Element 4 of the implementors["biscuit"] array in src/implementors/core/ops/trait.Place.js. -/
def implStr4 : String :=
  "impl&lt;\x27a, T&gt; <a class=\x27trait\x27 href=\x27https://doc.rust-lang.org/nightly/core/ops/trait.Place.html\x27 title=\x27core::ops::Place\x27>Place</a>&lt;T&gt; for <a class=\x27struct\x27 href=\x27https://doc.rust-lang.org/nightly/collections/linked_list/struct.BackPlace.html\x27 title=\x27collections::linked_list::BackPlace\x27>BackPlace</a>&lt;\x27a, T&gt;"

/-- Element 5 of the implementors["biscuit"] array in src/implementors/core/ops/trait.Place.js. -/
def implStr5 : String :=
  "impl&lt;\x27a, T&gt; <a class=\x27trait\x27 href=\x27https://doc.rust-lang.org/nightly/core/ops/trait.Place.html\x27 title=\x27core::ops::Place\x27>Place</a>&lt;T&gt; for <a class=\x27struct\x27 href=\x27https://doc.rust-lang.org/nightly/collections/vec/struct.PlaceBack.html\x27 title=\x27collections::vec::PlaceBack\x27>PlaceBack</a>&lt;\x27a, T&gt;"

/-- The five strings of the array assigned to `implementors["biscuit"]`
on line 2 of the source file, in source order. -/
def biscuitImpls : List String :=
  [implStr1, implStr2, implStr3, implStr4, implStr5]

/-- The `implementors` object as it stands after the two statements
`var implementors = {};` and `implementors["biscuit"] = [...];`:
property assignment `objSet` applied to the empty object. -/
def implementorsObj : Value :=
  .obj (objSet [] "biscuit" (.arr (biscuitImpls.map .str)))

/-- The property name `register_implementors` used by the script. -/
def propRegister : String := "register_implementors"

/-- The property name `pending_implementors` used by the script. -/
def propPending : String := "pending_implementors"

/-- The `window` object, modelled extensionally: every property name is
mapped to a value, absent properties to `undefined`. -/
def Window : Type := String → Value

/-- Result of one run of the script: the window as modified by the
script itself, and the calls the script made to the registration hook,
as (callee, argument) pairs in order. -/
structure RunResult where
  window : Window
  calls : List (Value × Value)

/-- JavaScript property assignment `window.k = v` on the modelled
window: the named property now reads as `v`, every other property is
unchanged. -/
def setProp (w : Window) (k : String) (v : Value) : Window :=
  fun p => if p = k then v else w p

/-- One run of the IIFE in src/implementors/core/ops/trait.Place.js: it
builds `implementorsObj`, then either calls
`window.register_implementors(implementors)` when that slot is truthy
(a `TypeError` arises if the truthy value is not callable, as in
JavaScript), or assigns `window.pending_implementors = implementors`
when the slot is falsy. -/
def runScript (w : Window) : Except String RunResult :=
  let implementors : Value := implementorsObj
  if truthy (w propRegister) then
    if isCallable (w propRegister) then
      .ok ⟨w, [(w propRegister, implementors)]⟩
    else
      .error "TypeError: window.register_implementors is not a function"
  else
    .ok ⟨setProp w propPending implementors, []⟩

/-- An empty window: every property reads as `undefined`. -/
def emptyWindow : Window := fun _ => .undefined

/-- A window whose registration hook is installed as a callable and
which is otherwise empty. -/
def hookWindow : Window :=
  fun p => if p = propRegister then .closure 0 else .undefined

/-- A window extensionally equal to `emptyWindow` but written
differently, used to exercise determinism. -/
def blankWindow : Window :=
  fun p => if p = propPending then .undefined else .undefined

/-- The run result produced by the script on an empty window: the
mapping is stored in `pending_implementors` and no call is made. -/
def pendingResult : RunResult :=
  ⟨setProp emptyWindow propPending implementorsObj, []⟩

/-- The run result produced by the script on `hookWindow`: the window
is untouched and the hook is called once with the mapping. -/
def hookResult : RunResult :=
  ⟨hookWindow, [(Value.closure 0, implementorsObj)]⟩

/-- Whether the pattern (first argument) is a leading segment of the
second list, comparing characters one by one. -/
def leadEq : List Char → List Char → Bool
  | [], _ => true
  | _ :: _, [] => false
  | p :: ps, c :: cs => p == c && leadEq ps cs

/-- Whether the pattern (second argument) occurs as a contiguous
segment of the first list. -/
def hasSubList : List Char → List Char → Bool
  | [], pat => pat.isEmpty
  | c :: cs, pat => leadEq pat (c :: cs) || hasSubList cs pat

/-- Whether the string `pat` occurs as a substring of `s`. -/
def strContains (s pat : String) : Bool :=
  hasSubList s.data pat.data

/-- The text lines of src/implementors/core/ops/trait.Place.js, in
order.  The file contains 9 newline characters and its last line is not
newline-terminated, so its text lines are exactly these 10 strings (a
brace is written \x7b or \x7d, an apostrophe \x27). -/
def sourceLines : List String :=
  ["(function() \x7bvar implementors = \x7b\x7d;",
   "implementors[\"biscuit\"] = [\"impl&lt;T&gt; <a class=\x27trait\x27 href=\x27https://doc.rust-lang.org/nightly/core/ops/trait.Place.html\x27 title=\x27core::ops::Place\x27>Place</a>&lt;T&gt; for <a class=\x27struct\x27 href=\x27https://doc.rust-lang.org/nightly/alloc/boxed/struct.IntermediateBox.html\x27 title=\x27alloc::boxed::IntermediateBox\x27>IntermediateBox</a>&lt;T&gt;\",\"impl&lt;\x27a, T&gt; <a class=\x27trait\x27 href=\x27https://doc.rust-lang.org/nightly/core/ops/trait.Place.html\x27 title=\x27core::ops::Place\x27>Place</a>&lt;T&gt; for <a class=\x27struct\x27 href=\x27https://doc.rust-lang.org/nightly/collections/binary_heap/struct.BinaryHeapPlace.html\x27 title=\x27collections::binary_heap::BinaryHeapPlace\x27>BinaryHeapPlace</a>&lt;\x27a, T&gt; <span class=\x27where fmt-newline\x27>where T: <a class=\x27trait\x27 href=\x27https://doc.rust-lang.org/nightly/core/clone/trait.Clone.html\x27 title=\x27core::clone::Clone\x27>Clone</a> + <a class=\x27trait\x27 href=\x27https://doc.rust-lang.org/nightly/core/cmp/trait.Ord.html\x27 title=\x27core::cmp::Ord\x27>Ord</a></span>\",\"impl&lt;\x27a, T&gt; <a class=\x27trait\x27 href=\x27https://doc.rust-lang.org/nightly/core/ops/trait.Place.html\x27 title=\x27core::ops::Place\x27>Place</a>&lt;T&gt; for <a class=\x27struct\x27 href=\x27https://doc.rust-lang.org/nightly/collections/linked_list/struct.FrontPlace.html\x27 title=\x27collections::linked_list::FrontPlace\x27>FrontPlace</a>&lt;\x27a, T&gt;\",\"impl&lt;\x27a, T&gt; <a class=\x27trait\x27 href=\x27https://doc.rust-lang.org/nightly/core/ops/trait.Place.html\x27 title=\x27core::ops::Place\x27>Place</a>&lt;T&gt; for <a class=\x27struct\x27 href=\x27https://doc.rust-lang.org/nightly/collections/linked_list/struct.BackPlace.html\x27 title=\x27collections::linked_list::BackPlace\x27>BackPlace</a>&lt;\x27a, T&gt;\",\"impl&lt;\x27a, T&gt; <a class=\x27trait\x27 href=\x27https://doc.rust-lang.org/nightly/core/ops/trait.Place.html\x27 title=\x27core::ops::Place\x27>Place</a>&lt;T&gt; for <a class=\x27struct\x27 href=\x27https://doc.rust-lang.org/nightly/collections/vec/struct.PlaceBack.html\x27 title=\x27collections::vec::PlaceBack\x27>PlaceBack</a>&lt;\x27a, T&gt;\",];",
   "",
   "            if (window.register_implementors) \x7b",
   "                window.register_implementors(implementors);",
   "            \x7d else \x7b",
   "                window.pending_implementors = implementors;",
   "            \x7d",
   "        ",
   "\x7d)()"]

/-- Case analysis of one run of the script: either the hook slot is
truthy and callable and the script calls it once with the mapping,
leaving the window untouched; or the slot is truthy but not callable
and a `TypeError` arises; or the slot is falsy and the mapping is
stored in `pending_implementors` with no call made. -/
theorem runScript_cases (w : Window) :
    (truthy (w propRegister) = true ∧ isCallable (w propRegister) = true ∧
      runScript w = .ok ⟨w, [(w propRegister, implementorsObj)]⟩)
    ∨ (truthy (w propRegister) = true ∧ isCallable (w propRegister) = false ∧
      runScript w =
        .error "TypeError: window.register_implementors is not a function")
    ∨ (truthy (w propRegister) = false ∧
      runScript w = .ok ⟨setProp w propPending implementorsObj, []⟩) := by
  by_cases ht : truthy (w propRegister) = true
  · by_cases hc : isCallable (w propRegister) = true
    · exact Or.inl ⟨ht, hc, by simp [runScript, ht, hc]⟩
    · exact Or.inr (Or.inl ⟨ht, Bool.eq_false_iff.mpr hc,
        by simp [runScript, ht, hc]⟩)
  · exact Or.inr (Or.inr ⟨Bool.eq_false_iff.mpr ht,
      by simp [runScript, ht]⟩)

example : truthy (emptyWindow propRegister) = false := rfl

example : truthy (hookWindow propRegister) = true := rfl

example : strContains "abcdef" "cde" = true := by decide

example : strContains "abcdef" "cdf" = false := by decide

/-- C1: when the hook `window.register_implementors` is truthy the
script calls it exactly once with the implementors mapping as sole
argument and changes nothing on the window; when it is falsy the
script makes no call and stores that same mapping in
`window.pending_implementors`.  Exactly one of the two effects occurs
per run.  The hypothesis records the spec precondition that the hook,
when present, is callable. -/
theorem c1_dispatch (w : Window)
    (hcall : truthy (w propRegister) = true → isCallable (w propRegister) = true) :
    (truthy (w propRegister) = true ∧
       runScript w = .ok ⟨w, [(w propRegister, implementorsObj)]⟩)
    ∨ (truthy (w propRegister) = false ∧
       runScript w = .ok ⟨setProp w propPending implementorsObj, []⟩) := by
  rcases runScript_cases w with ⟨ht, _, he⟩ | ⟨ht, hc, _⟩ | ⟨ht, he⟩
  · exact Or.inl ⟨ht, he⟩
  · exact absurd (hcall ht) (by simp [hc])
  · exact Or.inr ⟨ht, he⟩

/-- Witness for C1 at the concrete window `hookWindow`, whose hook slot
holds a callable. -/
theorem c1_dispatch_witness :
    (truthy (hookWindow propRegister) = true ∧
       runScript hookWindow =
         .ok ⟨hookWindow, [(hookWindow propRegister, implementorsObj)]⟩)
    ∨ (truthy (hookWindow propRegister) = false ∧
       runScript hookWindow =
         .ok ⟨setProp hookWindow propPending implementorsObj, []⟩) :=
  c1_dispatch hookWindow (fun _ => rfl)

/-- C2: the mapping built by the script has exactly the one key
"biscuit", its keys are unique, and the value at that key is a
non-empty ordered sequence of strings. -/
theorem c2_mapping_shape :
    objKeys implementorsObj = ["biscuit"] ∧
    (objKeys implementorsObj).Nodup ∧
    objGet implementorsObj "biscuit" = some (.arr (biscuitImpls.map .str)) ∧
    0 < (biscuitImpls.map Value.str).length ∧
    isStrArr (.arr (biscuitImpls.map .str)) = true := by
  refine ⟨rfl, by decide, rfl, by decide, rfl⟩

/-- C3: under the precondition that the hook, when truthy, is callable,
the script completes normally in both branches; the absent-hook
contingency is handled by deferral (storing the mapping), not by an
error. -/
theorem c3_no_error (w : Window)
    (hcall : truthy (w propRegister) = true → isCallable (w propRegister) = true) :
    (runScript w).isOk = true ∧
    (truthy (w propRegister) = true ∨
      runScript w = .ok ⟨setProp w propPending implementorsObj, []⟩) := by
  rcases runScript_cases w with ⟨ht, _, he⟩ | ⟨ht, hc, _⟩ | ⟨ht, he⟩
  · exact ⟨by rw [he]; rfl, Or.inl ht⟩
  · exact absurd (hcall ht) (by simp [hc])
  · exact ⟨by rw [he]; rfl, Or.inr he⟩

/-- Witness for C3 at the concrete window `emptyWindow`, whose hook
slot is absent. -/
theorem c3_no_error_witness :
    (runScript emptyWindow).isOk = true ∧
    (truthy (emptyWindow propRegister) = true ∨
      runScript emptyWindow =
        .ok ⟨setProp emptyWindow propPending implementorsObj, []⟩) :=
  c3_no_error emptyWindow (by decide)

/-- C4: the mapping is never mutated between construction and hand-off:
on every normal run the value handed off (the sole call argument, or
the value stored in `pending_implementors` when no call is made) is
exactly the constructed object, which has the single key "biscuit"
bound to the original five strings in their original order. -/
theorem c4_handoff (w : Window) (r : RunResult) (h : runScript w = .ok r) :
    (r.calls = [(w propRegister, implementorsObj)] ∨
       (r.calls = [] ∧ r.window propPending = implementorsObj)) ∧
    implementorsObj =
      .obj [("biscuit", .arr [.str implStr1, .str implStr2, .str implStr3,
        .str implStr4, .str implStr5])] := by
  rcases runScript_cases w with ⟨_, _, he⟩ | ⟨_, _, he⟩ | ⟨_, he⟩
  · rw [h] at he
    injection he with he
    subst he
    exact ⟨Or.inl rfl, rfl⟩
  · rw [h] at he
    simp at he
  · rw [h] at he
    injection he with he
    subst he
    exact ⟨Or.inr ⟨rfl, by simp [setProp]⟩, rfl⟩

/-- Witness for C4 at the concrete window `emptyWindow` and the run
result the script produces there. -/
theorem c4_handoff_witness :
    (pendingResult.calls = [(emptyWindow propRegister, implementorsObj)] ∨
       (pendingResult.calls = [] ∧
         pendingResult.window propPending = implementorsObj)) ∧
    implementorsObj =
      .obj [("biscuit", .arr [.str implStr1, .str implStr2, .str implStr3,
        .str implStr4, .str implStr5])] :=
  c4_handoff emptyWindow pendingResult rfl

/-- C5: every call the script makes to the registration hook passes a
mapping from string keys to ordered sequences of strings, namely the
implementors mapping itself. -/
theorem c5_contract (w : Window) (r : RunResult) (c : Value × Value)
    (hok : runScript w = .ok r) (hc : c ∈ r.calls) :
    isStrListMapping c.2 = true ∧ c.2 = implementorsObj := by
  rcases runScript_cases w with ⟨_, _, he⟩ | ⟨_, _, he⟩ | ⟨_, he⟩
  · rw [hok] at he
    injection he with he
    subst he
    simp only [List.mem_singleton] at hc
    subst hc
    exact ⟨rfl, rfl⟩
  · rw [hok] at he
    simp at he
  · rw [hok] at he
    injection he with he
    subst he
    simp at hc

/-- Witness for C5 at the concrete window `hookWindow` and the single
call the script makes there. -/
theorem c5_contract_witness :
    isStrListMapping implementorsObj = true ∧
    implementorsObj = implementorsObj :=
  c5_contract hookWindow hookResult (Value.closure 0, implementorsObj) rfl
    (List.Mem.head _)

/-- C6 counterexample: the source file is not 11 lines long; its text
lines number 10. -/
theorem c6_eleven_lines_false :
    sourceLines.length = 10 ∧ (sourceLines.length == 11) = false := by
  exact ⟨rfl, rfl⟩

/-- C6 (amended): the single source file
src/implementors/core/ops/trait.Place.js is 10 text lines long. -/
theorem c6_ten_lines : sourceLines.length = 10 := rfl

/-- C7: frame property: on every normal run, every window property
other than `pending_implementors` reads as before, and when the hook
slot is truthy even `pending_implementors` is unchanged. -/
theorem c7_frame (w : Window) (r : RunResult) (p : String)
    (hok : runScript w = .ok r) (hp : p ≠ propPending) :
    r.window p = w p ∧
    (truthy (w propRegister) = false ∨
      r.window propPending = w propPending) := by
  rcases runScript_cases w with ⟨_, _, he⟩ | ⟨_, _, he⟩ | ⟨ht, he⟩
  · rw [hok] at he
    injection he with he
    subst he
    exact ⟨rfl, Or.inr rfl⟩
  · rw [hok] at he
    simp at he
  · rw [hok] at he
    injection he with he
    subst he
    exact ⟨by simp [setProp, hp], Or.inl ht⟩

/-- Witness for C7 at the concrete window `emptyWindow`, its run
result, and the unrelated property name "foo". -/
theorem c7_frame_witness :
    pendingResult.window "foo" = emptyWindow "foo" ∧
    (truthy (emptyWindow propRegister) = false ∨
      pendingResult.window propPending = emptyWindow propPending) :=
  c7_frame emptyWindow pendingResult "foo" rfl (by decide)

/-- C8: the script's observable effect is a deterministic function of
the initial window state: two runs from extensionally equal windows
produce equal outcomes (final window and call sequence alike). -/
theorem c8_deterministic (w v : Window) (h : ∀ p, w p = v p) :
    runScript w = runScript v := by
  have hw : w = v := funext h
  rw [hw]

/-- Witness for C8 at two extensionally equal concrete windows written
differently. -/
theorem c8_deterministic_witness :
    runScript emptyWindow = runScript blankWindow :=
  c8_deterministic emptyWindow blankWindow
    (fun p => by simp [emptyWindow, blankWindow])

/-- C9: the sequence stored under the key "biscuit" has exactly five
elements, each a non-empty string containing the substring
"trait.Place.html" (each describes an implementation of the trait
core::ops::Place). -/
theorem c9_content :
    objGet implementorsObj "biscuit" = some (.arr (biscuitImpls.map .str)) ∧
    biscuitImpls.length = 5 ∧
    biscuitImpls.all
      (fun s => s != "" && strContains s "trait.Place.html") = true := by
  refine ⟨rfl, rfl, by decide⟩
